import Mathlib

/-!
Shallow embedding of the meal-builder logic (`MealBuilder` component) and of
the `/api/menu` and `/api/transactions` route handlers of the restaurant
point-of-sale repository, together with theorems settling the frozen claims
about them.
-/

namespace POS

/-- Modelled from the spec: the `MenuItem` record lives in `@/types`, which is
not under src/.  The spec's data model gives
`MenuItem: {id, item_type (side/entree), name, price, premium-flag, ingredients[]}`. -/
structure MenuItem where
  id : Int
  item_type : String
  name : String
  price : ℚ
  premium : Bool
  ingredients : List String
deriving DecidableEq, Repr

/-- Modelled from the spec: the `MealInProgress` record lives in `@/types`,
which is not under src/.  The spec's data model gives "up to 2 side slots,
up to 3 entrée slots"; the `MealBuilder` source reads exactly the fields
`side1`, `side2`, `entree1`, `entree2`, `entree3`, each a `MenuItem` or null. -/
structure MealInProgress where
  side1 : Option MenuItem
  side2 : Option MenuItem
  entree1 : Option MenuItem
  entree2 : Option MenuItem
  entree3 : Option MenuItem
deriving DecidableEq, Repr

/-- Result type of `getMealRequirements`: the number of side and entrée slots
required by a meal size. -/
structure MealRequirements where
  sides : Nat
  entrees : Nat
deriving DecidableEq, Repr

/-- Embeds `getMealRequirements` of the `MealBuilder` component: a switch on
the size string with a default branch returning one side and one entrée. -/
def getMealRequirements (size : String) : MealRequirements :=
  if size = "bowl" then ⟨1, 1⟩
  else if size = "plate" then ⟨1, 2⟩
  else if size = "bigger plate" then ⟨2, 3⟩
  else ⟨1, 1⟩

/-- The slot count summed inside `getProgress`
(`const total = requirements.sides + requirements.entrees`). -/
def totalSlots (size : String) : Nat :=
  (getMealRequirements size).sides + (getMealRequirements size).entrees

/-- The `filled` counter computed by the body of `getProgress`: side1 always
counts when present; side2 counts only when two sides are required; entree1
always counts when present; entree2 and entree3 count only when the size
requires at least two, respectively three, entrées. -/
def filledCount (size : String) (meal : MealInProgress) : Nat :=
  let requirements := getMealRequirements size
  let sidesFilled : Nat :=
    if requirements.sides = 1 then
      (if meal.side1.isSome then 1 else 0)
    else
      (if meal.side1.isSome then 1 else 0) + (if meal.side2.isSome then 1 else 0)
  let entreesFilled : Nat :=
    (if meal.entree1.isSome then 1 else 0) +
    (if 2 ≤ requirements.entrees ∧ meal.entree2.isSome then 1 else 0) +
    (if 3 ≤ requirements.entrees ∧ meal.entree3.isSome then 1 else 0)
  sidesFilled + entreesFilled

/-- Embeds `getProgress` of the `MealBuilder` component:
`(filled / total) * 100`, over the rationals. -/
def getProgress (size : String) (meal : MealInProgress) : ℚ :=
  (filledCount size meal : ℚ) / (totalSlots size : ℚ) * 100

/-- Embeds the `disabled={getProgress() < 100}` condition of the
"Add to Order" button of `MealBuilder`. -/
def addToOrderDisabled (size : String) (meal : MealInProgress) : Bool :=
  decide (getProgress size meal < 100)

/-- The two side slots of a meal, in fill order. -/
def sideSlots (meal : MealInProgress) : List (Option MenuItem) :=
  [meal.side1, meal.side2]

/-- The three entrée slots of a meal, in fill order. -/
def entreeSlots (meal : MealInProgress) : List (Option MenuItem) :=
  [meal.entree1, meal.entree2, meal.entree3]

/-- The side slots the given size requires: the first `sides`-many slots. -/
def requiredSideSlots (size : String) (meal : MealInProgress) : List (Option MenuItem) :=
  (sideSlots meal).take (getMealRequirements size).sides

/-- The entrée slots the given size requires: the first `entrees`-many slots. -/
def requiredEntreeSlots (size : String) (meal : MealInProgress) : List (Option MenuItem) :=
  (entreeSlots meal).take (getMealRequirements size).entrees

/-- The spec's notion of the number of filled required slots: among the slots
the size requires, those holding an item. -/
def specFilledCount (size : String) (meal : MealInProgress) : Nat :=
  (requiredSideSlots size meal).countP Option.isSome +
  (requiredEntreeSlots size meal).countP Option.isSome

/-- The spec's notion of completion: every slot the size requires holds an item. -/
def allRequiredFilled (size : String) (meal : MealInProgress) : Prop :=
  ∀ o ∈ requiredSideSlots size meal ++ requiredEntreeSlots size meal, o.isSome = true

instance (size : String) (meal : MealInProgress) :
    Decidable (allRequiredFilled size meal) := by
  unfold allRequiredFilled
  infer_instance

/-- The requirement table only ever produces the three enumerated rows
(the default branch coincides with the bowl row). -/
theorem getMealRequirements_cases (size : String) :
    getMealRequirements size = ⟨1, 1⟩ ∨ getMealRequirements size = ⟨1, 2⟩ ∨
      getMealRequirements size = ⟨2, 3⟩ := by
  unfold getMealRequirements
  split_ifs <;> simp

theorem req_bowl : getMealRequirements "bowl" = ⟨1, 1⟩ := rfl

theorem req_plate : getMealRequirements "plate" = ⟨1, 2⟩ := rfl

theorem req_bigger : getMealRequirements "bigger plate" = ⟨2, 3⟩ := rfl

/-- The `filled` counter of `getProgress` agrees with the spec's count of
filled required slots, for every size string and every meal state. -/
theorem filledCount_eq_specFilledCount (size : String) (meal : MealInProgress) :
    filledCount size meal = specFilledCount size meal := by
  rcases getMealRequirements_cases size with h | h | h <;>
    rcases meal with ⟨s1, s2, e1, e2, e3⟩ <;>
    simp only [filledCount, specFilledCount, requiredSideSlots, requiredEntreeSlots,
      sideSlots, entreeSlots, h] <;>
    cases s1 <;> cases s2 <;> cases e1 <;> cases e2 <;> cases e3 <;> simp

/-- C1: For every meal size, getMealRequirements returns exactly the required
(sides, entrees) counts the spec enumerates: (1,1) for "bowl", (1,2) for
"plate", and (2,3) for "bigger plate". -/
theorem mealRequirements_match_spec :
    getMealRequirements "bowl" = ⟨1, 1⟩ ∧ getMealRequirements "plate" = ⟨1, 2⟩ ∧
      getMealRequirements "bigger plate" = ⟨2, 3⟩ :=
  ⟨rfl, rfl, rfl⟩

/-- C2: For every meal size and every partial combination of filled slots,
getProgress returns (number of filled required slots) divided by (total
required slots for that size), times 100. -/
theorem getProgress_eq_filled_div_total (size : String) (meal : MealInProgress) :
    getProgress size meal = (specFilledCount size meal : ℚ) / (totalSlots size : ℚ) * 100 := by
  rw [getProgress, filledCount_eq_specFilledCount]

theorem totalSlots_pos (size : String) : 0 < totalSlots size := by
  rcases getMealRequirements_cases size with h | h | h <;> simp [totalSlots, h]

theorem filledCount_le_totalSlots (size : String) (meal : MealInProgress) :
    filledCount size meal ≤ totalSlots size := by
  rcases getMealRequirements_cases size with h | h | h <;>
    rcases meal with ⟨s1, s2, e1, e2, e3⟩ <;>
    simp only [filledCount, totalSlots, h] <;>
    cases s1 <;> cases s2 <;> cases e1 <;> cases e2 <;> cases e3 <;> simp

theorem getProgress_nonneg (size : String) (meal : MealInProgress) :
    0 ≤ getProgress size meal := by
  unfold getProgress
  positivity

theorem getProgress_le_100 (size : String) (meal : MealInProgress) :
    getProgress size meal ≤ 100 := by
  have ht : (0 : ℚ) < (totalSlots size : ℚ) := by exact_mod_cast totalSlots_pos size
  have hf : (filledCount size meal : ℚ) ≤ (totalSlots size : ℚ) := by
    exact_mod_cast filledCount_le_totalSlots size meal
  have hdiv : (filledCount size meal : ℚ) / (totalSlots size : ℚ) ≤ 1 :=
    (div_le_one ht).mpr hf
  calc (filledCount size meal : ℚ) / (totalSlots size : ℚ) * 100
      ≤ 1 * 100 := by nlinarith
    _ = 100 := by norm_num

theorem getProgress_eq_100_iff (size : String) (meal : MealInProgress) :
    getProgress size meal = 100 ↔ filledCount size meal = totalSlots size := by
  have ht : ((totalSlots size : ℚ)) ≠ 0 := by
    have := totalSlots_pos size
    exact ne_of_gt (by exact_mod_cast this)
  unfold getProgress
  rw [div_mul_eq_mul_div, div_eq_iff ht]
  constructor
  · intro h
    have hq : (filledCount size meal : ℚ) = (totalSlots size : ℚ) := by linarith
    exact_mod_cast hq
  · intro h
    rw [h]
    ring

theorem allRequiredFilled_iff_count (size : String) (meal : MealInProgress) :
    allRequiredFilled size meal ↔ specFilledCount size meal = totalSlots size := by
  rcases getMealRequirements_cases size with h | h | h <;>
    rcases meal with ⟨s1, s2, e1, e2, e3⟩ <;>
    simp only [allRequiredFilled, specFilledCount, requiredSideSlots, requiredEntreeSlots,
      sideSlots, entreeSlots, totalSlots, h] <;>
    cases s1 <;> cases s2 <;> cases e1 <;> cases e2 <;> cases e3 <;> simp

/-- C3: For every meal size and meal state, the "Add to Order" submission
control is enabled (its `disabled` flag is false) if and only if getProgress
equals 100, which holds if and only if all required slots for that size are
filled. -/
theorem addToOrder_enabled_iff (size : String) (meal : MealInProgress) :
    (addToOrderDisabled size meal = false ↔ getProgress size meal = 100) ∧
      (getProgress size meal = 100 ↔ allRequiredFilled size meal) := by
  constructor
  · rw [addToOrderDisabled, decide_eq_false_iff_not, not_lt]
    exact ⟨fun h => le_antisymm (getProgress_le_100 size meal) h, fun h => h.ge⟩
  · rw [getProgress_eq_100_iff, filledCount_eq_specFilledCount,
      allRequiredFilled_iff_count]

/-- C10: For every meal size string (including ones outside the three
enumerated sizes, which fall to the default requirements) and every meal
state (including states with slots filled beyond the size's quota),
getProgress stays between 0 and 100 inclusive. -/
theorem getProgress_bounds (size : String) (meal : MealInProgress) :
    0 ≤ getProgress size meal ∧ getProgress size meal ≤ 100 :=
  ⟨getProgress_nonneg size meal, getProgress_le_100 size meal⟩

/-- Embeds `isSideDisabled` of `MealBuilder`: with one required side, disabled
when side1 is taken by a different item; with two, disabled when both side
slots are taken and neither holds this item's id. -/
def isSideDisabled (size : String) (meal : MealInProgress) (item : MenuItem) : Bool :=
  let requirements := getMealRequirements size
  if requirements.sides = 1 then
    match meal.side1 with
    | none => false
    | some s1 => decide (s1.id ≠ item.id)
  else
    match meal.side1, meal.side2 with
    | some s1, some s2 => decide (s1.id ≠ item.id) && decide (s2.id ≠ item.id)
    | _, _ => false

/-- Embeds `isEntreeDisabled` of `MealBuilder`: a switch on the size string
("bowl" checks entree1, "plate" checks entree1 and entree2, anything else
checks all three entrée slots). -/
def isEntreeDisabled (size : String) (meal : MealInProgress) (item : MenuItem) : Bool :=
  if size = "bowl" then
    match meal.entree1 with
    | none => false
    | some e1 => decide (e1.id ≠ item.id)
  else if size = "plate" then
    match meal.entree1, meal.entree2 with
    | some e1, some e2 => decide (e1.id ≠ item.id) && decide (e2.id ≠ item.id)
    | _, _ => false
  else
    match meal.entree1, meal.entree2, meal.entree3 with
    | some e1, some e2, some e3 =>
        decide (e1.id ≠ item.id) && decide (e2.id ≠ item.id) && decide (e3.id ≠ item.id)
    | _, _, _ => false

/-- C4: For every meal size in the SizeEnum of the spec, every meal state and
every menu item, the item's selection button is disabled if and only if all
slots of the item's category required by that size are filled and the item
does not already occupy one of those slots (occupancy compared by id). -/
theorem item_disabled_iff (size : String) (meal : MealInProgress) (item : MenuItem)
    (hsize : size = "bowl" ∨ size = "plate" ∨ size = "bigger plate") :
    (isSideDisabled size meal item = true ↔
      ((∀ o ∈ requiredSideSlots size meal, o.isSome = true) ∧
        (∀ s : MenuItem, some s ∈ requiredSideSlots size meal → s.id ≠ item.id))) ∧
    (isEntreeDisabled size meal item = true ↔
      ((∀ o ∈ requiredEntreeSlots size meal, o.isSome = true) ∧
        (∀ s : MenuItem, some s ∈ requiredEntreeSlots size meal → s.id ≠ item.id))) := by
  rcases hsize with rfl | rfl | rfl <;>
    rcases meal with ⟨s1, s2, e1, e2, e3⟩ <;>
    simp only [isSideDisabled, isEntreeDisabled, requiredSideSlots, requiredEntreeSlots,
      sideSlots, entreeSlots, req_bowl, req_plate, req_bigger] <;>
    cases s1 <;> cases s2 <;> cases e1 <;> cases e2 <;> cases e3 <;>
    simp [and_assoc]

/-- A sample side item used to exercise the meal-builder theorems. -/
def sampleSide : MenuItem := ⟨1, "side", "Chow Mein", 2, false, []⟩

/-- A sample entrée item used to exercise the meal-builder theorems. -/
def sampleEntree : MenuItem := ⟨2, "entree", "Orange Chicken", 3, true, []⟩

/-- A sample candidate item used to exercise the meal-builder theorems. -/
def sampleItem : MenuItem := ⟨3, "side", "Fried Rice", 2, false, []⟩

/-- A sample meal with the first side and first entrée slots taken. -/
def sampleMeal : MealInProgress := ⟨some sampleSide, none, some sampleEntree, none, none⟩

/-- Witness for C4 at the concrete size "bowl", sample meal and sample item. -/
theorem item_disabled_iff_witness :
    ("bowl" = "bowl" ∨ "bowl" = "plate" ∨ "bowl" = "bigger plate") ∧
    ((isSideDisabled "bowl" sampleMeal sampleItem = true ↔
      ((∀ o ∈ requiredSideSlots "bowl" sampleMeal, o.isSome = true) ∧
        (∀ s : MenuItem, some s ∈ requiredSideSlots "bowl" sampleMeal → s.id ≠ sampleItem.id))) ∧
    (isEntreeDisabled "bowl" sampleMeal sampleItem = true ↔
      ((∀ o ∈ requiredEntreeSlots "bowl" sampleMeal, o.isSome = true) ∧
        (∀ s : MenuItem, some s ∈ requiredEntreeSlots "bowl" sampleMeal → s.id ≠ sampleItem.id)))) :=
  ⟨Or.inl rfl, item_disabled_iff "bowl" sampleMeal sampleItem (Or.inl rfl)⟩

/-- JavaScript `parseInt` on a query-string value, restricted to base 10:
skip leading spaces, read an optional sign and then the longest prefix of
decimal digits; `none` models the NaN result when no digit is read. -/
def parseIntJS (s : String) : Option Int :=
  let cs := s.toList.dropWhile (fun c => c = ' ')
  let signed : Int × List Char :=
    match cs with
    | '-' :: r => (-1, r)
    | '+' :: r => (1, r)
    | r => (1, r)
  let ds := signed.2.takeWhile Char.isDigit
  if ds.isEmpty then none
  else some (signed.1 * (ds.foldl (fun a c => a * 10 + (c.toNat - 48)) 0 : Nat))

/-- JavaScript truthiness of `searchParams.get(...)`: null and the empty
string are falsy, every other string is truthy. -/
def optTruthy : Option String → Bool
  | none => false
  | some s => !s.isEmpty

/-- JavaScript truthiness of a JSON number field: absent and 0 are falsy. -/
def intTruthy : Option Int → Bool
  | none => false
  | some n => decide (n ≠ 0)

/-- The JSON body a route handler passes to `NextResponse.json`: a single
record, a list of records, an error object with an optional `details` field,
or a message object. -/
inductive JsonBody (E Rec : Type) where
  | record (r : Rec)
  | records (rs : List Rec)
  | error (msg : String) (details : Option E)
  | message (msg : String)
deriving DecidableEq, Repr

/-- A `NextResponse.json(body, { status })` value. -/
structure ApiResponse (E Rec : Type) where
  status : Nat
  body : JsonBody E Rec
deriving DecidableEq, Repr

/-- The `details` field of a response's JSON body, when the body is an error
object; the caught error is embedded in the response exactly when this is
`some` of it. -/
def errorDetails {E Rec : Type} : JsonBody E Rec → Option E
  | .error _ d => d
  | _ => none

/-- Embeds the GET handler of `/api/menu`: on a truthy id parameter, look the
item up by `parseInt(id)` and answer 404 on a miss, the record on a hit;
otherwise answer the full list.  A thrown error is caught and answered with a
generic 500 whose body does not carry the error object.  The data layer
(`@/lib/menu`, not under src/) is the pair of function arguments; a thrown
JavaScript error is an `Except.error`. -/
def menuGET {E Rec : Type} (getMenuItemById : Option Int → Except E (Option Rec))
    (getAllMenuItems : Except E (List Rec)) (idParam : Option String) :
    ApiResponse E Rec :=
  if optTruthy idParam then
    match getMenuItemById (parseIntJS (idParam.getD "")) with
    | .error _ => ⟨500, .error "Failed to fetch menu items." none⟩
    | .ok none => ⟨404, .error "Menu item not found." none⟩
    | .ok (some r) => ⟨200, .record r⟩
  else
    match getAllMenuItems with
    | .error _ => ⟨500, .error "Failed to fetch menu items." none⟩
    | .ok rs => ⟨200, .records rs⟩

/-- Embeds the GET handler of `/api/transactions`: same shape as the menu GET
handler, except that the catch branch embeds the caught error object under
`details` in the 500 response body. -/
def transactionsGET {E Rec : Type} (getTransactionDetails : Option Int → Except E (Option Rec))
    (getTransactions : Except E (List Rec)) (idParam : Option String) :
    ApiResponse E Rec :=
  if optTruthy idParam then
    match getTransactionDetails (parseIntJS (idParam.getD "")) with
    | .error e => ⟨500, .error "Failed to fetch transactions" (some e)⟩
    | .ok none => ⟨404, .error "Transaction not found" none⟩
    | .ok (some r) => ⟨200, .record r⟩
  else
    match getTransactions with
    | .error e => ⟨500, .error "Failed to fetch transactions" (some e)⟩
    | .ok rs => ⟨200, .records rs⟩

/-- The parsed JSON body of a POST to `/api/menu`; `none` in a field models
an absent (undefined) property, `ingredients` defaults to the empty list. -/
structure MenuPostBody where
  item_type : Option String
  name : Option String
  price : Option ℚ
  premium : Option Bool
  ingredients : Option (List String)
deriving DecidableEq, Repr

/-- The argument tuple of a call to the data-layer `addMenuItem`. -/
structure MenuAddArgs where
  item_type : String
  name : String
  price : ℚ
  premium : Bool
  ingredients : List String
deriving DecidableEq, Repr

/-- The argument object of a call to the data-layer `addTransaction`. -/
structure TransactionAddArgs where
  customerName : String
  cashierName : String
  salePrice : ℚ
  items : Int
  meals : Int
  appetizers : Int
  drinks : Int
deriving DecidableEq, Repr

/-- The parsed JSON body of a POST to `/api/transactions`; the count fields
default to 0 when absent. -/
structure TransactionPostBody where
  customerName : Option String
  cashierName : Option String
  salePrice : Option ℚ
  items : Option Int
  meals : Option Int
  appetizers : Option Int
  drinks : Option Int
deriving DecidableEq, Repr

/-- The outcome of a handler that may call into the data layer: the response
sent, and the argument of the data-layer call when one was made. -/
structure HandlerOutcome (E Rec Args : Type) where
  resp : ApiResponse E Rec
  dbCall : Option Args
deriving DecidableEq, Repr

/-- JavaScript truthiness of a JSON string field: absent and "" are falsy. -/
def strFieldTruthy : Option String → Bool
  | none => false
  | some s => !s.isEmpty

/-- The arguments the menu POST handler passes to `addMenuItem` once
validation has passed (each required field is then present). -/
def menuArgsOf (b : MenuPostBody) : MenuAddArgs :=
  ⟨b.item_type.getD "", b.name.getD "", b.price.getD 0, b.premium.getD false,
    b.ingredients.getD []⟩

/-- Embeds the POST handler of `/api/menu`: reject with 400 when `item_type`
or `name` is falsy or `price` or `premium` is undefined, otherwise call
`addMenuItem` and answer the created record with status 201; a thrown error
is caught and answered with a generic 500 without the error object. -/
def menuPOST {E Rec : Type} (addMenuItem : MenuAddArgs → Except E Rec)
    (body : Except E MenuPostBody) : HandlerOutcome E Rec MenuAddArgs :=
  match body with
  | .error _ => ⟨⟨500, .error "Failed to add menu item." none⟩, none⟩
  | .ok b =>
    if !strFieldTruthy b.item_type || !strFieldTruthy b.name ||
        b.price.isNone || b.premium.isNone then
      ⟨⟨400, .error "Invalid input. All fields are required." none⟩, none⟩
    else
      match addMenuItem (menuArgsOf b) with
      | .error _ => ⟨⟨500, .error "Failed to add menu item." none⟩, some (menuArgsOf b)⟩
      | .ok r => ⟨⟨201, .record r⟩, some (menuArgsOf b)⟩

/-- The arguments the transactions POST handler passes to `addTransaction`
once validation has passed. -/
def transactionArgsOf (b : TransactionPostBody) : TransactionAddArgs :=
  ⟨b.customerName.getD "", b.cashierName.getD "", b.salePrice.getD 0,
    b.items.getD 0, b.meals.getD 0, b.appetizers.getD 0, b.drinks.getD 0⟩

/-- Embeds the POST handler of `/api/transactions`: reject with 400 when
`customerName` or `cashierName` is falsy or `salePrice` is undefined,
otherwise call `addTransaction` and answer the created record with the
default status 200; a thrown error is caught and answered with a 500 whose
body embeds the caught error under `details`. -/
def transactionsPOST {E Rec : Type} (addTransaction : TransactionAddArgs → Except E Rec)
    (body : Except E TransactionPostBody) : HandlerOutcome E Rec TransactionAddArgs :=
  match body with
  | .error e => ⟨⟨500, .error "Failed to create transaction" (some e)⟩, none⟩
  | .ok b =>
    if !strFieldTruthy b.customerName || !strFieldTruthy b.cashierName ||
        b.salePrice.isNone then
      ⟨⟨400, .error "Missing required fields" none⟩, none⟩
    else
      match addTransaction (transactionArgsOf b) with
      | .error e => ⟨⟨500, .error "Failed to create transaction" (some e)⟩,
          some (transactionArgsOf b)⟩
      | .ok r => ⟨⟨200, .record r⟩, some (transactionArgsOf b)⟩

/-- The parsed JSON body of a PUT to `/api/menu`, abstracting the update
fields as an opaque payload of type `Upd`; `id` is `none` when absent. -/
structure MenuPutBody (Upd : Type) where
  id : Option Int
  updates : Upd
deriving DecidableEq, Repr

/-- Embeds the PUT handler of `/api/menu`: reject with 400 when `id` is
falsy, answer 404 when `updateMenuItem` finds nothing, the updated record
otherwise; a thrown error is caught and answered with a generic 500 without
the error object. -/
def menuPUT {E Rec Upd : Type} (updateMenuItem : Int → Upd → Except E (Option Rec))
    (body : Except E (MenuPutBody Upd)) : ApiResponse E Rec :=
  match body with
  | .error _ => ⟨500, .error "Failed to update menu item." none⟩
  | .ok b =>
    if !intTruthy b.id then
      ⟨400, .error "ID is required to update the menu item." none⟩
    else
      match updateMenuItem (b.id.getD 0) b.updates with
      | .error _ => ⟨500, .error "Failed to update menu item." none⟩
      | .ok none => ⟨404, .error "Menu item not found." none⟩
      | .ok (some r) => ⟨200, .record r⟩

/-- Embeds the DELETE handler of `/api/menu`: reject with 400, before any
data-layer call, when the id parameter is falsy or `parseInt` of it is NaN;
otherwise call `deleteMenuItem` and answer 200 with a message object; a
thrown error is caught and answered with a generic 500 without the error
object. -/
def menuDELETE {E Rec : Type} (deleteMenuItem : Int → Except E Unit)
    (idParam : Option String) : HandlerOutcome E Rec Int :=
  if !optTruthy idParam || (parseIntJS (idParam.getD "")).isNone then
    ⟨⟨400, .error "Invalid or missing menu item ID." none⟩, none⟩
  else
    match deleteMenuItem ((parseIntJS (idParam.getD "")).getD 0) with
    | .error _ => ⟨⟨500, .error "Failed to delete menu item." none⟩,
        some ((parseIntJS (idParam.getD "")).getD 0)⟩
    | .ok _ => ⟨⟨200, .message "Menu item deleted successfully."⟩,
        some ((parseIntJS (idParam.getD "")).getD 0)⟩

theorem optTruthy_of_ne (s : String) (h : s ≠ "") : optTruthy (some s) = true := by
  have hempty : s.isEmpty = false := by
    rw [← Bool.not_eq_true, String.isEmpty_iff]
    exact h
  simp [optTruthy, hempty]

/-- C5: For every GET request to /api/menu or /api/transactions carrying a
(truthy) id query parameter, a lookup miss by the parsed id is answered with
status 404 and an error body, and a lookup hit is answered with the found
record. -/
theorem get_by_id_404_or_record {E Rec : Type}
    (byIdMenu : Option Int → Except E (Option Rec)) (allMenu : Except E (List Rec))
    (byIdTx : Option Int → Except E (Option Rec)) (allTx : Except E (List Rec))
    (sA sB sC sD : String) (r1 r2 : Rec)
    (hA : sA ≠ "") (hB : sB ≠ "") (hC : sC ≠ "") (hD : sD ≠ "")
    (hmissMenu : byIdMenu (parseIntJS sA) = Except.ok none)
    (hhitMenu : byIdMenu (parseIntJS sB) = Except.ok (some r1))
    (hmissTx : byIdTx (parseIntJS sC) = Except.ok none)
    (hhitTx : byIdTx (parseIntJS sD) = Except.ok (some r2)) :
    menuGET byIdMenu allMenu (some sA) = ⟨404, .error "Menu item not found." none⟩ ∧
    menuGET byIdMenu allMenu (some sB) = ⟨200, .record r1⟩ ∧
    transactionsGET byIdTx allTx (some sC) = ⟨404, .error "Transaction not found" none⟩ ∧
    transactionsGET byIdTx allTx (some sD) = ⟨200, .record r2⟩ := by
  refine ⟨?_, ?_, ?_, ?_⟩
  · simp [menuGET, optTruthy_of_ne sA hA, hmissMenu]
  · simp [menuGET, optTruthy_of_ne sB hB, hhitMenu]
  · simp [transactionsGET, optTruthy_of_ne sC hC, hmissTx]
  · simp [transactionsGET, optTruthy_of_ne sD hD, hhitTx]

/-- A sample menu lookup table: only id 2 is present, mapped to record 7. -/
def menuDbW : Option Int → Except String (Option Nat) := fun i =>
  if i = some 2 then Except.ok (some 7) else Except.ok none

/-- A sample transaction lookup table: only id 3 is present, mapped to 8. -/
def txDbW : Option Int → Except String (Option Nat) := fun i =>
  if i = some 3 then Except.ok (some 8) else Except.ok none

/-- Witness for C5 on concrete lookup tables and id strings. -/
theorem get_by_id_404_or_record_witness :
    menuGET menuDbW (Except.ok []) (some "1") = ⟨404, .error "Menu item not found." none⟩ ∧
    menuGET menuDbW (Except.ok []) (some "2") = ⟨200, .record 7⟩ ∧
    transactionsGET txDbW (Except.ok []) (some "1") = ⟨404, .error "Transaction not found" none⟩ ∧
    transactionsGET txDbW (Except.ok []) (some "3") = ⟨200, .record 8⟩ :=
  get_by_id_404_or_record menuDbW (Except.ok []) txDbW (Except.ok [])
    "1" "2" "1" "3" 7 8 (by decide) (by decide) (by decide) (by decide)
    rfl rfl rfl rfl

/-- C6: For every POST request body that passes validation and whose creation
succeeds, the menu handler answers the created record with status 201 while
the transactions handler answers the created record with status 200 (and each
calls its data layer exactly on the destructured arguments). -/
theorem post_valid_creates {E Rec : Type}
    (addMenuItem : MenuAddArgs → Except E Rec)
    (addTransaction : TransactionAddArgs → Except E Rec)
    (bm : MenuPostBody) (bt : TransactionPostBody) (rm rt : Rec)
    (h1 : strFieldTruthy bm.item_type = true) (h2 : strFieldTruthy bm.name = true)
    (h3 : bm.price.isNone = false) (h4 : bm.premium.isNone = false)
    (h5 : addMenuItem (menuArgsOf bm) = Except.ok rm)
    (h6 : strFieldTruthy bt.customerName = true) (h7 : strFieldTruthy bt.cashierName = true)
    (h8 : bt.salePrice.isNone = false)
    (h9 : addTransaction (transactionArgsOf bt) = Except.ok rt) :
    menuPOST addMenuItem (Except.ok bm) = ⟨⟨201, .record rm⟩, some (menuArgsOf bm)⟩ ∧
    transactionsPOST addTransaction (Except.ok bt) =
      ⟨⟨200, .record rt⟩, some (transactionArgsOf bt)⟩ := by
  constructor
  · simp [menuPOST, h1, h2, h3, h4, h5]
  · simp [transactionsPOST, h6, h7, h8, h9]

/-- A sample valid menu POST body. -/
def menuBodyW : MenuPostBody := ⟨some "side", some "Chow Mein", some 2, some false, none⟩

/-- A sample valid transactions POST body. -/
def txBodyW : TransactionPostBody := ⟨some "Alice", some "Bob", some 10, none, none, none, none⟩

/-- Witness for C6 on concrete valid bodies and data layers. -/
theorem post_valid_creates_witness :
    menuPOST (fun _ => (Except.ok 41 : Except String Nat)) (Except.ok menuBodyW) =
      ⟨⟨201, .record 41⟩, some (menuArgsOf menuBodyW)⟩ ∧
    transactionsPOST (fun _ => (Except.ok 42 : Except String Nat)) (Except.ok txBodyW) =
      ⟨⟨200, .record 42⟩, some (transactionArgsOf txBodyW)⟩ :=
  post_valid_creates (fun _ => Except.ok 41) (fun _ => Except.ok 42) menuBodyW txBodyW 41 42
    rfl rfl rfl rfl rfl rfl rfl rfl rfl

/-- C7: For every DELETE request to /api/menu whose id parameter is missing
or does not parse as a number, the handler answers 400 without calling
deleteMenuItem; for an id that parses (and whose deletion succeeds) it
answers 200 with a message body, having called deleteMenuItem on the parsed
id. -/
theorem menu_delete_status {E Rec : Type} (deleteMenuItem : Int → Except E Unit)
    (idBad : Option String) (sGood : String) (n : Int)
    (hbad : idBad = none ∨ parseIntJS (idBad.getD "") = none)
    (hgood : parseIntJS sGood = some n)
    (hok : deleteMenuItem n = Except.ok ()) :
    (menuDELETE deleteMenuItem idBad : HandlerOutcome E Rec Int) =
      ⟨⟨400, .error "Invalid or missing menu item ID." none⟩, none⟩ ∧
    (menuDELETE deleteMenuItem (some sGood) : HandlerOutcome E Rec Int) =
      ⟨⟨200, .message "Menu item deleted successfully."⟩, some n⟩ := by
  have hne : sGood ≠ "" := by
    intro h
    rw [h, show parseIntJS "" = none from rfl] at hgood
    cases hgood
  constructor
  · rcases hbad with h | h
    · simp [menuDELETE, h, optTruthy]
    · simp [menuDELETE, h]
  · simp [menuDELETE, optTruthy_of_ne sGood hne, hgood, hok]

/-- Witness for C7 with a non-numeric id "abc" and the numeric id "12". -/
theorem menu_delete_status_witness :
    (menuDELETE (fun _ => Except.ok ()) (some "abc") : HandlerOutcome String Nat Int) =
      ⟨⟨400, .error "Invalid or missing menu item ID." none⟩, none⟩ ∧
    (menuDELETE (fun _ => Except.ok ()) (some "12") : HandlerOutcome String Nat Int) =
      ⟨⟨200, .message "Menu item deleted successfully."⟩, some 12⟩ :=
  menu_delete_status (fun _ => Except.ok ()) (some "abc") "12" 12
    (Or.inr (by decide)) (by decide) rfl

/-- Counterexample for C8: the menu GET handler, when the underlying fetch
throws the error "boom", answers 500 but does not embed the caught error
object in the response body — its `details` slot is empty, not `some "boom"`. -/
theorem menu_get_omits_error_details :
    (menuGET (fun _ => Except.error "boom") (Except.error "boom") (some "1") :
        ApiResponse String Nat) =
      ⟨500, .error "Failed to fetch menu items." none⟩ ∧
    errorDetails (menuGET (fun _ => Except.error "boom") (Except.error "boom") (some "1") :
        ApiResponse String Nat).body ≠ some "boom" :=
  ⟨rfl, by decide⟩

/-- C8 amended: every handler catches a throwing operation and answers status
500 with a JSON error body; the transactions handlers embed the caught error
object under `details`, while the menu handlers answer only a generic error
message without the error object. -/
theorem handlers_catch_500 {E Rec Upd : Type} (e : E) (idParam : Option String) :
    (menuGET (fun _ => Except.error e) (Except.error e) idParam :
        ApiResponse E Rec).status = 500 ∧
    errorDetails (menuGET (fun _ => Except.error e) (Except.error e) idParam :
        ApiResponse E Rec).body = none ∧
    (transactionsGET (fun _ => Except.error e) (Except.error e) idParam :
        ApiResponse E Rec).status = 500 ∧
    errorDetails (transactionsGET (fun _ => Except.error e) (Except.error e) idParam :
        ApiResponse E Rec).body = some e ∧
    (menuPOST (fun _ => Except.error e) (Except.error e) :
        HandlerOutcome E Rec MenuAddArgs).resp.status = 500 ∧
    errorDetails (menuPOST (fun _ => Except.error e) (Except.error e) :
        HandlerOutcome E Rec MenuAddArgs).resp.body = none ∧
    (transactionsPOST (fun _ => Except.error e) (Except.error e) :
        HandlerOutcome E Rec TransactionAddArgs).resp.status = 500 ∧
    errorDetails (transactionsPOST (fun _ => Except.error e) (Except.error e) :
        HandlerOutcome E Rec TransactionAddArgs).resp.body = some e ∧
    (menuPUT (fun _ (_ : Upd) => Except.error e) (Except.error e) :
        ApiResponse E Rec).status = 500 ∧
    errorDetails (menuPUT (fun _ (_ : Upd) => Except.error e) (Except.error e) :
        ApiResponse E Rec).body = none ∧
    (menuDELETE (fun _ => Except.error e) (some "1") :
        HandlerOutcome E Rec Int).resp.status = 500 ∧
    errorDetails (menuDELETE (fun _ => Except.error e) (some "1") :
        HandlerOutcome E Rec Int).resp.body = none := by
  refine ⟨?_, ?_, ?_, ?_, rfl, rfl, rfl, rfl, rfl, rfl, rfl, rfl⟩
  · unfold menuGET
    split <;> rfl
  · unfold menuGET
    split <;> rfl
  · unfold transactionsGET
    split <;> rfl
  · unfold transactionsGET
    split <;> rfl

/-- C9: For every POST request body missing a required field (customerName,
cashierName or salePrice for transactions; item_type, name, price or premium
for menu), the handler answers 400 and never invokes the data-layer
function. -/
theorem post_missing_field_400 {E Rec : Type}
    (addMenuItem : MenuAddArgs → Except E Rec)
    (addTransaction : TransactionAddArgs → Except E Rec)
    (bm : MenuPostBody) (bt : TransactionPostBody)
    (hm : bm.item_type = none ∨ bm.name = none ∨ bm.price = none ∨ bm.premium = none)
    (ht : bt.customerName = none ∨ bt.cashierName = none ∨ bt.salePrice = none) :
    (menuPOST addMenuItem (Except.ok bm)).resp.status = 400 ∧
    (menuPOST addMenuItem (Except.ok bm)).dbCall = none ∧
    (transactionsPOST addTransaction (Except.ok bt)).resp.status = 400 ∧
    (transactionsPOST addTransaction (Except.ok bt)).dbCall = none := by
  have hmenu : (menuPOST addMenuItem (Except.ok bm)).resp.status = 400 ∧
      (menuPOST addMenuItem (Except.ok bm)).dbCall = none := by
    rcases hm with h | h | h | h <;> simp [menuPOST, strFieldTruthy, h]
  have htx : (transactionsPOST addTransaction (Except.ok bt)).resp.status = 400 ∧
      (transactionsPOST addTransaction (Except.ok bt)).dbCall = none := by
    rcases ht with h | h | h <;> simp [transactionsPOST, strFieldTruthy, h]
  exact ⟨hmenu.1, hmenu.2, htx.1, htx.2⟩

/-- A menu POST body missing its item_type. -/
def menuBodyMissingW : MenuPostBody := ⟨none, some "Chow Mein", some 2, some false, none⟩

/-- A transactions POST body missing its customerName. -/
def txBodyMissingW : TransactionPostBody := ⟨none, some "Bob", some 10, none, none, none, none⟩

/-- Witness for C9 on concrete bodies each missing one required field. -/
theorem post_missing_field_400_witness :
    (menuPOST (fun _ => (Except.ok 41 : Except String Nat)) (Except.ok menuBodyMissingW)).resp.status = 400 ∧
    (menuPOST (fun _ => (Except.ok 41 : Except String Nat)) (Except.ok menuBodyMissingW)).dbCall = none ∧
    (transactionsPOST (fun _ => (Except.ok 42 : Except String Nat)) (Except.ok txBodyMissingW)).resp.status = 400 ∧
    (transactionsPOST (fun _ => (Except.ok 42 : Except String Nat)) (Except.ok txBodyMissingW)).dbCall = none :=
  post_missing_field_400 (fun _ => Except.ok 41) (fun _ => Except.ok 42)
    menuBodyMissingW txBodyMissingW (Or.inl rfl) (Or.inl rfl)

end POS
